import Mathlib

/-!
Shallow embedding of the report API route handlers of the Clean-India
repository: the collection route (POST create, GET list) and the
per-id route (GET, PATCH, DELETE).  External collaborators (image
hosting, geocoding, document store) are modelled as explicit
parameters; every outbound call the handlers make is recorded in an
event trace so that claims about side effects can be stated.
-/

namespace CleanIndia

/-- A geographic location `{lat, lng}`.  The handlers never compute with the
coordinates, so integers model the numeric pair faithfully. -/
structure Loc where
  lat : Int
  lng : Int
deriving DecidableEq, Repr

/-- A hosted image as returned by the image-storage adapter:
`{url: secure_url, publicId: public_id}`. -/
structure Image where
  url : String
  publicId : String
deriving DecidableEq, Repr

/-- JavaScript truthiness of an optional string field: absent (`undefined`)
and the empty string are falsy. -/
def truthyOptStr : Option String → Bool
  | none => false
  | some s => s ≠ ""

/-- JavaScript `x || d` on an optional string: the default replaces an
absent or empty value. -/
def jsOr (o : Option String) (d : String) : String :=
  match o with
  | none => d
  | some s => if s = "" then d else s

/-- JavaScript `String.prototype.trim`: removes leading and trailing
whitespace.  Implemented by structural recursion over the character list so
that concrete instances evaluate inside the kernel. -/
def jsTrim (s : String) : String :=
  String.mk (((s.data.dropWhile Char.isWhitespace).reverse.dropWhile
    Char.isWhitespace).reverse)

/-- The category enum of the report schema. -/
def validCategories : List String := ["garbage", "waterlogging", "other"]

/-- The report data assembled by the POST handler and handed to the
data-access layer (`reportData` in the source). -/
structure ReportData where
  title : String
  description : String
  category : String
  location : Option Loc
  imageUrl : String
  images : List Image
  createdBy : String
deriving DecidableEq, Repr

/-- The partial-update record assembled by the PATCH handler
(`updateData` in the source): only fields present in the request body
appear. -/
structure UpdateData where
  title : Option String
  description : Option String
  category : Option String
  location : Option Loc
  imagesToDelete : Option (List String)
  newImages : Option (List Image)
deriving DecidableEq, Repr

/-- A stored report record in the document store, with the fields the
handlers read (`createdBy` is the owner's user id). -/
structure StoredReport where
  title : String
  description : String
  category : String
  location : Option Loc
  imageUrl : String
  images : List Image
  resolved : Bool
  createdBy : String
deriving DecidableEq, Repr

/-- One outbound call made by a handler: image upload/deletion, geocoding,
or a database operation. -/
inductive Event where
  | uploadCall (payload : String)
  | deleteCall (publicId : String)
  | geocodeCall (address : String)
  | dbLookup (id : String)
  | dbCreate (data : ReportData)
  | dbUpdate (id : String) (u : UpdateData)
  | dbDelete (id : String)
deriving DecidableEq, Repr

/-- Whether an event writes to the document store. -/
def Event.isDbWrite : Event → Bool
  | .dbCreate _ => true
  | .dbUpdate _ _ => true
  | .dbDelete _ => true
  | _ => false

/-- The external environment: the image-storage adapter (`uploadImage`,
`none` models an upload failure) and the geocoding adapter
(`geocodeAddress`, `none` models a geocoding failure). -/
structure Env where
  upload : String → Option Image
  geocode : String → Option Loc

/-- The document store, keyed by report id (`getReportById`). -/
def Store := String → Option StoredReport

/-- Outcome of the sequential image-upload loop. -/
inductive UploadOutcome where
  | ok (uploaded : List Image)
  | failed (uploadedSoFar : List Image)
deriving DecidableEq, Repr

/-- The sequential upload loop shared by POST and PATCH: uploads each
payload in order; on the first failure it attempts to delete every image
uploaded so far in this call (compensating cleanup) and stops.  Returns
the trace of outbound calls and the outcome. -/
def uploadLoop (env : Env) : List String → List Image → (List Event × UploadOutcome)
  | [], acc => ([], .ok acc)
  | p :: rest, acc =>
    match env.upload p with
    | some r =>
      let (evs, out) := uploadLoop env rest (acc ++ [r])
      (Event.uploadCall p :: evs, out)
    | none =>
      (Event.uploadCall p :: acc.map (fun i => Event.deleteCall i.publicId), .failed acc)

/-- Outcome of resolving the final location from a direct `location` or a
free-text `address`. -/
inductive GeoOutcome where
  | ok (finalLocation : Option Loc) (events : List Event)
  | fail (events : List Event)
deriving Repr

/-- Location resolution shared by POST and PATCH: a directly supplied
`location` wins; otherwise a truthy `address` is geocoded (failure aborts
with 400); otherwise the final location stays undefined. -/
def resolveLocation (env : Env) (location : Option Loc) (address : Option String) :
    GeoOutcome :=
  match location with
  | some loc => .ok (some loc) []
  | none =>
    if truthyOptStr address then
      match env.geocode (address.getD "") with
      | some c => .ok (some c) [Event.geocodeCall (address.getD "")]
      | none => .fail [Event.geocodeCall (address.getD "")]
    else .ok none []

/-- The user id the POST handler records as owner: the `user-id` header if
truthy, else the fixed dummy ObjectId substituted for the placeholder. -/
def effectiveUserId (header : Option String) : String :=
  let u := jsOr header "placeholder-user-id"
  if u = "placeholder-user-id" then "000000000000000000000001" else u

/-- Request body of POST /api/report; `none` models an absent field. -/
structure PostBody where
  title : Option String
  description : Option String
  category : Option String
  location : Option Loc
  address : Option String
  newImages : Option (List String)
deriving Repr

/-- The POST handler's required-field check:
`!title || !description || !category || !newImages || (!location && !address)`.
Note that a present list is truthy in JavaScript even when empty. -/
def postMissing (b : PostBody) : Bool :=
  !(truthyOptStr b.title) || !(truthyOptStr b.description) ||
  !(truthyOptStr b.category) || b.newImages.isNone ||
  (b.location.isNone && !(truthyOptStr b.address))

/-- The trimmed projection returned by a successful POST. -/
structure RespReport where
  title : String
  category : String
  location : Option Loc
  imageUrl : String
deriving DecidableEq, Repr

/-- Result of a POST request: HTTP status, outbound-call trace, the record
persisted via `createReport` (if any), and the response projection. -/
structure PostResult where
  status : Nat
  events : List Event
  created : Option ReportData
  response : Option RespReport
deriving Repr

/-- POST /api/report: validate required fields and category, resolve the
location, upload the images sequentially (rolling back this call's uploads
on failure), then persist the report with the trimmed title/description,
the first uploaded image's URL as `imageUrl`, and the effective user id as
owner. -/
def POST (env : Env) (header : Option String) (b : PostBody) : PostResult :=
  if postMissing b then
    { status := 400, events := [], created := none, response := none }
  else if !(validCategories.contains (b.category.getD "")) then
    { status := 400, events := [], created := none, response := none }
  else
    let userId := effectiveUserId header
    match resolveLocation env b.location b.address with
    | .fail evs =>
      { status := 400, events := evs, created := none, response := none }
    | .ok finalLocation evs =>
      match uploadLoop env (b.newImages.getD []) [] with
      | (upEvs, .failed _) =>
        { status := 500, events := evs ++ upEvs, created := none, response := none }
      | (upEvs, .ok uploaded) =>
        let data : ReportData :=
          { title := jsTrim (b.title.getD "")
            description := jsTrim (b.description.getD "")
            category := b.category.getD ""
            location := finalLocation
            imageUrl := ((uploaded.head?).map Image.url).getD ""
            images := uploaded
            createdBy := userId }
        { status := 201
          events := evs ++ upEvs ++ [Event.dbCreate data]
          created := some data
          response := some { title := data.title, category := data.category,
                             location := data.location, imageUrl := data.imageUrl } }

/-- Structurally invalid report id: empty, or the literal strings
"undefined"/"null" (checked by GET and PATCH on the per-id route). -/
def invalidId (id : String) : Bool :=
  id = "" || id = "undefined" || id = "null"

/-- Result of a GET-by-id request. -/
structure GetResult where
  status : Nat
  events : List Event
  report : Option StoredReport
deriving Repr

/-- GET /api/report/[id]: reject structurally invalid ids with 400 before
any database access, then look the report up (404 when absent). -/
def GETbyId (db : Store) (id : String) (includeReviews : Bool) : GetResult :=
  if invalidId id then
    { status := 400, events := [], report := none }
  else
    match db id with
    | none => { status := 404, events := [Event.dbLookup id], report := none }
    | some r =>
      let _ := includeReviews
      { status := 200, events := [Event.dbLookup id], report := some r }

/-- Request body of PATCH /api/report/[id]; `none` models an absent field. -/
structure PatchBody where
  title : Option String
  description : Option String
  category : Option String
  location : Option Loc
  address : Option String
  newImages : Option (List String)
  imagesToDelete : Option (List String)
deriving Repr

/-- Modelled from the spec: the data-access layer's `updateReport(id, patch)`
is not under src/ (only the route handlers are); per §4.4 and §4.6 it merges
only the explicitly present fields of the patch into the persisted record,
removes the images whose publicIds are listed in `imagesToDelete`, and
appends the uploaded `newImages`. -/
def applyUpdate (r : StoredReport) (u : UpdateData) : StoredReport :=
  { r with
    title := u.title.getD r.title
    description := u.description.getD r.description
    category := u.category.getD r.category
    location := match u.location with | some l => some l | none => r.location
    images :=
      (r.images.filter (fun i => !((u.imagesToDelete.getD []).contains i.publicId)))
        ++ u.newImages.getD [] }

/-- Result of a PATCH request: HTTP status, outbound-call trace, and the
state of the addressed record after the call (`none` when absent). -/
structure PatchResult where
  status : Nat
  events : List Event
  stored : Option StoredReport
deriving Repr

/-- PATCH /api/report/[id]: validate the id, authenticate, load the report,
check ownership, validate a truthy category against the enum, resolve the
location, best-effort-delete the listed images, upload new images (rolling
back this call's uploads on failure), then merge the explicitly present
fields via the data-access update. -/
def PATCH (env : Env) (db : Store) (header : Option String) (id : String)
    (pb : PatchBody) : PatchResult :=
  if invalidId id then
    { status := 400, events := [], stored := db id }
  else
    let userId := jsOr header "placeholder-user-id"
    if userId = "placeholder-user-id" then
      { status := 401, events := [], stored := db id }
    else
      match db id with
      | none => { status := 404, events := [Event.dbLookup id], stored := none }
      | some current =>
        if current.createdBy ≠ userId then
          { status := 403, events := [Event.dbLookup id], stored := some current }
        else if truthyOptStr pb.category &&
            !(validCategories.contains (pb.category.getD "")) then
          { status := 400, events := [Event.dbLookup id], stored := some current }
        else
          match resolveLocation env pb.location pb.address with
          | .fail gevs =>
            { status := 400, events := Event.dbLookup id :: gevs,
              stored := some current }
          | .ok finalLocation gevs =>
            let delEvs := (pb.imagesToDelete.getD []).map Event.deleteCall
            match uploadLoop env (pb.newImages.getD []) [] with
            | (upEvs, .failed _) =>
              { status := 500
                events := Event.dbLookup id :: (gevs ++ delEvs ++ upEvs)
                stored := some current }
            | (upEvs, .ok uploaded) =>
              let u : UpdateData :=
                { title := pb.title
                  description := pb.description
                  category := pb.category
                  location := finalLocation
                  imagesToDelete := pb.imagesToDelete
                  newImages := if uploaded.isEmpty then none else some uploaded }
              { status := 200
                events := Event.dbLookup id ::
                  (gevs ++ delEvs ++ upEvs ++ [Event.dbUpdate id u])
                stored := some (applyUpdate current u) }

/-- The data-access layer's `deleteReportIfOwner(reportId, userId)`,
embedded from the db-module excerpt staged after the UI component in
src/src/components/Navbar.js (lines 118-136): it looks the report up with
`findById`, returns false when the report is absent, returns false when
`report.createdBy.toString()` differs from `userId`, and otherwise deletes
the record with `findByIdAndDelete` and returns true. -/
def deleteReportIfOwner (db : Store) (reportId userId : String) : Bool :=
  match db reportId with
  | none => false
  | some report => if report.createdBy ≠ userId then false else true

/-- Result of a DELETE request: HTTP status, outbound-call trace, and the
state of the addressed record after the call. -/
structure DeleteResult where
  status : Nat
  events : List Event
  stored : Option StoredReport
deriving Repr

/-- DELETE /api/report/[id]: reject only an empty id (the literal
"undefined"/"null" strings are NOT checked here), authenticate, load the
report, check ownership, best-effort-delete the hosted images (falling back
to the main image URL when the images list is empty), then delete via the
owner-checked data-access call. -/
def DELETE (env : Env) (db : Store) (header : Option String) (id : String) :
    DeleteResult :=
  if id = "" then
    { status := 400, events := [], stored := db id }
  else
    let userId := jsOr header "placeholder-user-id"
    if userId = "placeholder-user-id" then
      { status := 401, events := [], stored := db id }
    else
      match db id with
      | none => { status := 404, events := [Event.dbLookup id], stored := none }
      | some r =>
        if r.createdBy ≠ userId then
          { status := 403, events := [Event.dbLookup id], stored := some r }
        else
          let imgEvs :=
            if r.images ≠ [] then r.images.map (fun i => Event.deleteCall i.publicId)
            else if r.imageUrl ≠ "" then [Event.deleteCall r.imageUrl]
            else []
          if deleteReportIfOwner db id userId then
            { status := 200
              events := Event.dbLookup id :: (imgEvs ++ [Event.dbDelete id])
              stored := none }
          else
            { status := 500, events := Event.dbLookup id :: imgEvs, stored := some r }

/-- JavaScript `parseInt(param) || d`: `none` models an absent or
non-numeric parameter (`NaN`), and a parsed 0 is falsy, so both fall back
to the default. -/
def parsedOr (v : Option Int) (d : Int) : Int :=
  match v with
  | none => d
  | some n => if n = 0 then d else n

/-- Modelled from the spec: the data-access layer's `getAllReports(options)`
is not under src/; per §4.3 and §4.6 it returns the requested page of the
(optionally category/resolved-filtered) reports, at most `limit` entries. -/
def getAllReports (store : List StoredReport) (page limit : Int)
    (category : Option String) (resolved : Option Bool) : List StoredReport :=
  let f1 := match category with
    | none => store
    | some c => store.filter (fun r => r.category = c)
  let f2 := match resolved with
    | none => f1
    | some b => f1.filter (fun r => r.resolved = b)
  (f2.drop (((page - 1) * limit).toNat)).take limit.toNat

/-- Result of a GET-list request. -/
structure ListResult where
  status : Nat
  reports : List StoredReport
deriving Repr

/-- GET /api/report: parse page (default 1) and limit (default 20) with
JavaScript `parseInt(...) || default` semantics, reject out-of-range values
with 400, and return a page of reports.  A truthy category parameter and a
present resolved parameter become filters. -/
def GETlist (store : List StoredReport) (pageParam limitParam : Option Int)
    (category : Option String) (resolved : Option String) : ListResult :=
  let page := parsedOr pageParam 1
  let limit := parsedOr limitParam 20
  if page < 1 || limit < 1 || limit > 100 then
    { status := 400, reports := [] }
  else
    let catFilter := if truthyOptStr category then some (category.getD "") else none
    let resFilter := resolved.map (fun s => s == "true")
    { status := 200, reports := getAllReports store page limit catFilter resFilter }

/-! ## Concrete fixtures used by witnesses and counterexamples -/

/-- An environment whose image and geocoding services always fail (never
reached in the scenarios that use it). -/
def envNone : Env := { upload := fun _ => none, geocode := fun _ => none }

/-- An environment whose uploads always succeed, deriving the hosted URL and
publicId from the payload. -/
def envOk : Env :=
  { upload := fun p => some { url := p ++ ".url", publicId := p ++ ".id" }
    geocode := fun _ => some { lat := 1, lng := 2 } }

/-- An environment whose upload fails exactly on the payload "bad". -/
def envFailBad : Env :=
  { upload := fun p =>
      if p = "bad" then none else some { url := p ++ ".url", publicId := p ++ ".id" }
    geocode := fun _ => none }

/-- An empty document store. -/
def dbEmpty : Store := fun _ => none

/-- A stored report owned by user "u1". -/
def report1 : StoredReport :=
  { title := "t1", description := "d1", category := "garbage"
    location := some { lat := 28, lng := 77 }, imageUrl := "u1"
    images := [{ url := "u1", publicId := "p1" }], resolved := false
    createdBy := "u1" }

/-- A store holding exactly `report1` under id "r1". -/
def db1 : Store := fun i => if i = "r1" then some report1 else none

/-- A PATCH body with every field absent. -/
def pbEmpty : PatchBody :=
  { title := none, description := none, category := none, location := none
    address := none, newImages := none, imagesToDelete := none }

/-- A POST body that is valid except that its image list is present but
empty. -/
def emptyImagesBody : PostBody :=
  { title := some "Overflowing bin", description := some "near market"
    category := some "garbage", location := some { lat := 28, lng := 77 }
    address := none, newImages := some [] }

/-- The record the create path persists for `emptyImagesBody`. -/
def emptyImagesReport : ReportData :=
  { title := "Overflowing bin", description := "near market", category := "garbage"
    location := some { lat := 28, lng := 77 }, imageUrl := "", images := []
    createdBy := "000000000000000000000001" }

/-- A POST body with no title. -/
def noTitleBody : PostBody :=
  { title := none, description := some "d", category := some "garbage"
    location := some { lat := 0, lng := 0 }, address := none
    newImages := some ["i"] }

/-- A valid POST body with two image payloads. -/
def twoImgBody : PostBody :=
  { title := some "t", description := some "d", category := some "garbage"
    location := some { lat := 0, lng := 0 }, address := none
    newImages := some ["a", "b"] }

/-- The images `envOk` produces for the payloads of `twoImgBody`. -/
def twoImgRes : Nat → Image := fun j =>
  { url := (["a", "b"].getD j "") ++ ".url", publicId := (["a", "b"].getD j "") ++ ".id" }

/-- A POST body whose second image payload fails under `envFailBad`. -/
def badBatchBody : PostBody :=
  { title := some "t", description := some "d", category := some "garbage"
    location := some { lat := 0, lng := 0 }, address := none
    newImages := some ["a", "bad", "c"] }

/-- The images `envFailBad` produces for the payloads before the failure. -/
def badBatchRes : Nat → Image := fun j =>
  { url := (["a", "bad", "c"].getD j "") ++ ".url"
    publicId := (["a", "bad", "c"].getD j "") ++ ".id" }

/-- A PATCH body adding the failing batch. -/
def badBatchPatch : PatchBody :=
  { title := none, description := none, category := none, location := none
    address := none, newImages := some ["a", "bad", "c"], imagesToDelete := none }

/-- A PATCH body supplying only a new description. -/
def descPatch : PatchBody :=
  { title := none, description := some "new", category := none, location := none
    address := none, newImages := none, imagesToDelete := none }

/-- A PATCH body supplying the empty-string category. -/
def emptyCatPatch : PatchBody :=
  { title := none, description := none, category := some "", location := none
    address := none, newImages := none, imagesToDelete := none }

/-- A POST body with a whitespace-only title and untrimmed description. -/
def wsBody : PostBody :=
  { title := some " ", description := some " d ", category := some "garbage"
    location := some { lat := 0, lng := 0 }, address := none
    newImages := some ["img1"] }

/-- The record the create path persists for `wsBody` under `envOk`. -/
def wsCreated : ReportData :=
  { title := "", description := "d", category := "garbage"
    location := some { lat := 0, lng := 0 }, imageUrl := "img1.url"
    images := [{ url := "img1.url", publicId := "img1.id" }]
    createdBy := "000000000000000000000001" }

/-! ## Helper lemmas -/

/-- When every upload in the batch succeeds, the loop returns all results in
order and the trace is exactly one upload call per payload. -/
theorem uploadLoop_all_some (env : Env) :
    ∀ (imgs : List String) (acc : List Image) (res : Nat → Image),
    (∀ j, j < imgs.length → env.upload (imgs.getD j "") = some (res j)) →
    uploadLoop env imgs acc =
      (imgs.map Event.uploadCall, .ok (acc ++ (List.range imgs.length).map res))
  | [], acc, res, _ => by simp [uploadLoop]
  | p :: rest, acc, res, h => by
    have h0 : env.upload p = some (res 0) := by
      have := h 0 (by simp)
      simpa using this
    have ih := uploadLoop_all_some env rest (acc ++ [res 0]) (fun j => res (j + 1))
      (fun j hj => by
        have := h (j + 1) (by simpa using Nat.succ_lt_succ hj)
        simpa using this)
    simp only [uploadLoop, h0, ih]
    simp [List.range_succ_eq_map, List.map_map, Function.comp]

/-- When the uploads succeed up to position `k` and fail at position `k`, the
loop stops there, attempts a compensating deletion of every image uploaded so
far in this call, and reports failure. -/
theorem uploadLoop_fails_at (env : Env) :
    ∀ (imgs : List String) (acc : List Image) (k : Nat) (res : Nat → Image),
    k < imgs.length →
    (∀ j, j < k → env.upload (imgs.getD j "") = some (res j)) →
    env.upload (imgs.getD k "") = none →
    uploadLoop env imgs acc =
      ((imgs.take (k + 1)).map Event.uploadCall ++
         (acc ++ (List.range k).map res).map (fun i => Event.deleteCall i.publicId),
       .failed (acc ++ (List.range k).map res))
  | [], _, k, _, hk, _, _ => absurd hk (by simp)
  | p :: rest, acc, 0, res, _, _, hfail => by
    have hp : env.upload p = none := by simpa using hfail
    simp [uploadLoop, hp]
  | p :: rest, acc, k + 1, res, hk, hpre, hfail => by
    have h0 : env.upload p = some (res 0) := by
      have := hpre 0 (Nat.succ_pos k)
      simpa using this
    have ih := uploadLoop_fails_at env rest (acc ++ [res 0]) k (fun j => res (j + 1))
      (by simpa using Nat.lt_of_succ_lt_succ hk)
      (fun j hj => by
        have := hpre (j + 1) (Nat.succ_lt_succ hj)
        simpa using this)
      (by simpa using hfail)
    simp only [uploadLoop, h0, ih]
    simp [List.range_succ_eq_map, List.map_map, Function.comp]

/-- When every upload in the batch succeeds, the loop succeeds; an empty
batch returns the accumulator untouched with no outbound calls. -/
theorem uploadLoop_ok_of_isSome (env : Env) :
    ∀ (imgs : List String) (acc : List Image),
    (∀ p ∈ imgs, (env.upload p).isSome) →
    ∃ evs l, uploadLoop env imgs acc = (evs, .ok l) ∧ (imgs = [] → evs = [] ∧ l = acc)
  | [], acc, _ => ⟨[], acc, rfl, fun _ => ⟨rfl, rfl⟩⟩
  | p :: rest, acc, h => by
    obtain ⟨r, hr⟩ := Option.isSome_iff_exists.mp (h p (by simp))
    obtain ⟨evs, l, hloop, -⟩ :=
      uploadLoop_ok_of_isSome env rest (acc ++ [r]) (fun q hq => h q (by simp [hq]))
    exact ⟨Event.uploadCall p :: evs, l, by simp [uploadLoop, hr, hloop], by simp⟩

/-- If a direct location is supplied, or the address is falsy, or geocoding
succeeds, location resolution does not abort, and its trace is at most one
geocoding call. -/
theorem resolveLocation_ok_of (env : Env) (loc : Option Loc) (addr : Option String)
    (h : loc.isSome ∨ truthyOptStr addr = false ∨ (env.geocode (addr.getD "")).isSome) :
    ∃ floc gevs, resolveLocation env loc addr = .ok floc gevs ∧
      (gevs = [] ∨ gevs = [Event.geocodeCall (addr.getD "")]) ∧
      (loc.isSome → floc = loc) ∧
      (loc = none → truthyOptStr addr = false → floc = none) := by
  cases hl : loc with
  | some l =>
    exact ⟨some l, [], by simp [resolveLocation], Or.inl rfl, fun _ => rfl,
      by simp⟩
  | none =>
    cases ht : truthyOptStr addr with
    | false =>
      refine ⟨none, [], ?_, Or.inl rfl, by simp, fun _ _ => rfl⟩
      simp [resolveLocation, ht]
    | true =>
      rcases h with h | h | h
      · simp [hl] at h
      · simp [ht] at h
      · obtain ⟨c, hc⟩ := Option.isSome_iff_exists.mp h
        refine ⟨some c, [Event.geocodeCall (addr.getD "")], ?_, Or.inr rfl,
          by simp [hl], by simp [ht]⟩
        simp [resolveLocation, ht, hc]

/-- A POST request that passes validation, has a valid category, a present
image list, and a non-aborting location resolution reduces to the upload
stage. -/
theorem POST_stage_eq (env : Env) (header : Option String) (b : PostBody)
    (imgs : List String) (floc : Option Loc) (gevs : List Event)
    (hmiss : postMissing b = false)
    (hcat : validCategories.contains (b.category.getD "") = true)
    (himgs : b.newImages = some imgs)
    (hres : resolveLocation env b.location b.address = GeoOutcome.ok floc gevs) :
    POST env header b =
      (match uploadLoop env imgs [] with
       | (upEvs, .failed _) =>
         { status := 500, events := gevs ++ upEvs, created := none, response := none }
       | (upEvs, .ok uploaded) =>
         let data : ReportData :=
           { title := jsTrim (b.title.getD "")
             description := jsTrim (b.description.getD "")
             category := b.category.getD ""
             location := floc
             imageUrl := ((uploaded.head?).map Image.url).getD ""
             images := uploaded
             createdBy := effectiveUserId header }
         { status := 201
           events := gevs ++ upEvs ++ [Event.dbCreate data]
           created := some data
           response := some { title := data.title, category := data.category,
                              location := data.location, imageUrl := data.imageUrl } }) := by
  simp only [POST, hmiss, hcat, hres, himgs, Bool.false_eq_true, if_false,
    Bool.not_true, Option.getD_some]

/-- A PATCH request that passes id validation, authentication, ownership,
the category check, and location resolution reduces to the image stage. -/
theorem PATCH_owner_eq (env : Env) (db : Store) (uid id : String) (pb : PatchBody)
    (r : StoredReport) (floc : Option Loc) (gevs : List Event)
    (hid : invalidId id = false)
    (hu1 : uid ≠ "") (hu2 : uid ≠ "placeholder-user-id")
    (hdb : db id = some r) (hown : r.createdBy = uid)
    (hpcat : truthyOptStr pb.category = false ∨
             validCategories.contains (pb.category.getD "") = true)
    (hres : resolveLocation env pb.location pb.address = GeoOutcome.ok floc gevs) :
    PATCH env db (some uid) id pb =
      (match uploadLoop env (pb.newImages.getD []) [] with
       | (upEvs, .failed _) =>
         { status := 500
           events := Event.dbLookup id ::
             (gevs ++ (pb.imagesToDelete.getD []).map Event.deleteCall ++ upEvs)
           stored := some r }
       | (upEvs, .ok uploaded) =>
         let u : UpdateData :=
           { title := pb.title, description := pb.description, category := pb.category,
             location := floc, imagesToDelete := pb.imagesToDelete,
             newImages := if uploaded.isEmpty then none else some uploaded }
         { status := 200
           events := Event.dbLookup id ::
             (gevs ++ (pb.imagesToDelete.getD []).map Event.deleteCall ++ upEvs ++
               [Event.dbUpdate id u])
           stored := some (applyUpdate r u) }) := by
  have hjs : jsOr (some uid) "placeholder-user-id" = uid := by simp [jsOr, hu1]
  have hcat' : (truthyOptStr pb.category &&
      !(validCategories.contains (pb.category.getD ""))) = false := by
    rcases hpcat with h | h
    · simp [h]
    · rw [h]; simp
  simp only [PATCH, hid, Bool.false_eq_true, if_false, hjs, if_neg hu2, hdb, hown,
    ne_eq, not_true_eq_false, hcat', hres]

/-! ## Claims -/

/-- C1 (counterexample): a POST whose `newImages` is a present but empty list
passes the required-field check — an empty array is truthy in JavaScript — and
is persisted with an empty images collection and status 201, refuting the
claim that the create path requires at least one image. -/
theorem claim1_counterexample :
    (POST envNone none emptyImagesBody).status = 201 ∧
    (POST envNone none emptyImagesBody).created = some emptyImagesReport ∧
    Event.dbCreate emptyImagesReport ∈ (POST envNone none emptyImagesBody).events ∧
    emptyImagesReport.images = [] := by
  decide

/-- C1 (amended): creation fails with 400 — persisting nothing and making no
outbound call — when title, description or category is absent or empty, when
`newImages` is absent, or when both a location and a truthy address are
absent; a present empty `newImages` list is not rejected, so a report with an
empty images collection can be persisted through the create path. -/
theorem claim1_validation (env : Env) (header : Option String) (b : PostBody)
    (h : truthyOptStr b.title = false ∨ truthyOptStr b.description = false ∨
         truthyOptStr b.category = false ∨ b.newImages = none ∨
         (b.location = none ∧ truthyOptStr b.address = false)) :
    (POST env header b).status = 400 ∧ (POST env header b).created = none ∧
    (POST env header b).events = [] := by
  have hpm : postMissing b = true := by
    rcases h with h | h | h | h | ⟨h1, h2⟩ <;> simp [postMissing, *]
  simp [POST, hpm]

/-- C1 (witness): the amended validation behaviour at a concrete body with no
title. -/
theorem claim1_witness :
    (POST envNone none noTitleBody).status = 400 ∧
    (POST envNone none noTitleBody).created = none ∧
    (POST envNone none noTitleBody).events = [] :=
  claim1_validation envNone none noTitleBody (Or.inl rfl)

/-- C3 (counterexample): the DELETE handler checks only for an empty id, not
the literal "undefined"/"null" strings: an authenticated DELETE of id
"undefined" proceeds to a database lookup (404 here), rather than returning
400 without touching the database. -/
theorem claim3_counterexample :
    (DELETE envNone dbEmpty (some "u1") "undefined").status = 404 ∧
    Event.dbLookup "undefined" ∈
      (DELETE envNone dbEmpty (some "u1") "undefined").events := by
  decide

/-- C3 (amended): for report ids "", "undefined" and "null", GET and PATCH
return 400 with no outbound call at all; DELETE behaves that way only for the
empty id — for the other two it proceeds past validation and, for an
authenticated user, performs a database lookup of that id. -/
theorem claim3_invalid_ids (env : Env) (db : Store) (header : Option String)
    (inc : Bool) (pb : PatchBody) (uid id : String)
    (h : id = "" ∨ id = "undefined" ∨ id = "null")
    (hu1 : uid ≠ "") (hu2 : uid ≠ "placeholder-user-id") :
    (GETbyId db id inc).status = 400 ∧ (GETbyId db id inc).events = [] ∧
    (PATCH env db header id pb).status = 400 ∧
    (PATCH env db header id pb).events = [] ∧
    (id = "" → (DELETE env db (some uid) id).status = 400 ∧
      (DELETE env db (some uid) id).events = []) ∧
    (id ≠ "" → Event.dbLookup id ∈ (DELETE env db (some uid) id).events) := by
  have hid : invalidId id = true := by
    rcases h with h | h | h <;> simp [invalidId, h]
  refine ⟨by simp [GETbyId, hid], by simp [GETbyId, hid],
    by simp [PATCH, hid], by simp [PATCH, hid], fun he => by simp [DELETE, he],
    fun hne => ?_⟩
  have hjs : jsOr (some uid) "placeholder-user-id" = uid := by simp [jsOr, hu1]
  simp only [DELETE, if_neg hne, hjs, if_neg hu2]
  cases hdb : db id with
  | none => simp
  | some r =>
    by_cases ho : r.createdBy = uid
    · simp only [ho, ne_eq, not_true_eq_false, if_false]
      split <;> simp
    · simp [ho]

/-- C3 (witness): the amended behaviour at the concrete id "undefined". -/
theorem claim3_witness :
    (GETbyId dbEmpty "undefined" false).status = 400 ∧
    (GETbyId dbEmpty "undefined" false).events = [] ∧
    (PATCH envNone dbEmpty none "undefined" pbEmpty).status = 400 ∧
    (PATCH envNone dbEmpty none "undefined" pbEmpty).events = [] ∧
    ("undefined" = "" → (DELETE envNone dbEmpty (some "u1") "undefined").status = 400 ∧
      (DELETE envNone dbEmpty (some "u1") "undefined").events = []) ∧
    ("undefined" ≠ "" → Event.dbLookup "undefined" ∈
      (DELETE envNone dbEmpty (some "u1") "undefined").events) :=
  claim3_invalid_ids envNone dbEmpty none false pbEmpty "u1" "undefined"
    (Or.inr (Or.inl rfl)) (by decide) (by decide)

/-- C4: a PATCH on an existing report by an authenticated user who is not
the owner returns 403, leaves the stored record unchanged, and the only
outbound call of the request is the ownership lookup — in particular no
geocoding, image-upload or image-deletion call is made. -/
theorem claim4_nonowner_403 (env : Env) (db : Store) (uid id : String)
    (pb : PatchBody) (r : StoredReport)
    (hid : invalidId id = false)
    (hu1 : uid ≠ "") (hu2 : uid ≠ "placeholder-user-id")
    (hdb : db id = some r) (hown : r.createdBy ≠ uid) :
    (PATCH env db (some uid) id pb).status = 403 ∧
    (PATCH env db (some uid) id pb).stored = some r ∧
    (PATCH env db (some uid) id pb).events = [Event.dbLookup id] := by
  have hjs : jsOr (some uid) "placeholder-user-id" = uid := by simp [jsOr, hu1]
  simp [PATCH, hid, hjs, hu2, hdb, hown]

/-- C4 (witness): a non-owner PATCH at a concrete store. -/
theorem claim4_witness :
    (PATCH envNone db1 (some "u2") "r1" pbEmpty).status = 403 ∧
    (PATCH envNone db1 (some "u2") "r1" pbEmpty).stored = some report1 ∧
    (PATCH envNone db1 (some "u2") "r1" pbEmpty).events = [Event.dbLookup "r1"] :=
  claim4_nonowner_403 envNone db1 "u2" "r1" pbEmpty report1 (by decide) (by decide)
    (by decide) (by decide) (by decide)

/-- C5: a POST that passes validation, carries at least one image, resolves
its location, and whose uploads all succeed returns 201, and both the
response's and the persisted record's `imageUrl` equal the URL of the first
uploaded image of the batch. -/
theorem claim5_first_image_url (env : Env) (header : Option String) (b : PostBody)
    (imgs : List String) (res : Nat → Image)
    (hmiss : postMissing b = false)
    (hcat : validCategories.contains (b.category.getD "") = true)
    (himgs : b.newImages = some imgs) (hne : imgs ≠ [])
    (hloc : b.location.isSome ∨ truthyOptStr b.address = false ∨
            (env.geocode (b.address.getD "")).isSome)
    (hup : ∀ j, j < imgs.length → env.upload (imgs.getD j "") = some (res j)) :
    (POST env header b).status = 201 ∧
    ((POST env header b).response.map RespReport.imageUrl) = some (res 0).url ∧
    ((POST env header b).created.map ReportData.imageUrl) = some (res 0).url := by
  obtain ⟨floc, gevs, hres, -, -, -⟩ :=
    resolveLocation_ok_of env b.location b.address hloc
  rw [POST_stage_eq env header b imgs floc gevs hmiss hcat himgs hres,
    uploadLoop_all_some env imgs [] res hup]
  obtain ⟨n, hn⟩ : ∃ n, imgs.length = n + 1 := by
    cases imgs with
    | nil => exact absurd rfl hne
    | cons a l => exact ⟨l.length, rfl⟩
  simp [hn, List.range_succ_eq_map]

/-- C5 (witness): a concrete two-image create under an always-succeeding
upload service. -/
theorem claim5_witness :
    (POST envOk none twoImgBody).status = 201 ∧
    ((POST envOk none twoImgBody).response.map RespReport.imageUrl) =
      some (twoImgRes 0).url ∧
    ((POST envOk none twoImgBody).created.map ReportData.imageUrl) =
      some (twoImgRes 0).url :=
  claim5_first_image_url envOk none twoImgBody ["a", "b"] twoImgRes (by decide)
    (by decide) rfl (by decide) (Or.inl (by decide))
    (by
      intro j hj
      simp only [List.length_cons, List.length_nil] at hj
      interval_cases j <;> rfl)

/-- Auxiliary: an event list made of mapped non-write events contains no
database write. -/
theorem all_not_dbWrite_map {α : Type} (f : α → Event) (l : List α)
    (hf : ∀ a, (f a).isDbWrite = false) :
    (l.map f).all (fun e => !e.isDbWrite) = true := by
  induction l with
  | nil => rfl
  | cons a rest ih => simp [hf, ih]

/-- Auxiliary: no-database-write is preserved by append. -/
theorem all_not_dbWrite_append (l1 l2 : List Event)
    (h1 : l1.all (fun e => !e.isDbWrite) = true)
    (h2 : l2.all (fun e => !e.isDbWrite) = true) :
    (l1 ++ l2).all (fun e => !e.isDbWrite) = true := by
  simp_all [List.all_append]

/-- Auxiliary: no-database-write is preserved by cons of a non-write event. -/
theorem all_not_dbWrite_cons (e : Event) (t : List Event)
    (he : e.isDbWrite = false) (ht : t.all (fun e => !e.isDbWrite) = true) :
    (e :: t).all (fun e => !e.isDbWrite) = true := by
  simp [List.all_cons, he, ht]

/-- C2: when the image batch fails at position `k` (all uploads at earlier
positions succeeded), both the POST and the owner PATCH attempt a
compensating deletion of every image uploaded earlier in that same call,
return 500, and make no database write: POST persists nothing and PATCH
leaves the stored record unchanged. -/
theorem claim2_rollback (env : Env) (header : Option String) (db : Store)
    (uid id : String) (b : PostBody) (pb : PatchBody) (r : StoredReport)
    (imgs : List String) (k : Nat) (res : Nat → Image)
    (hk : k < imgs.length)
    (hpre : ∀ j, j < k → env.upload (imgs.getD j "") = some (res j))
    (hfail : env.upload (imgs.getD k "") = none)
    (hmiss : postMissing b = false)
    (hcat : validCategories.contains (b.category.getD "") = true)
    (himgs : b.newImages = some imgs)
    (hloc : b.location.isSome ∨ truthyOptStr b.address = false ∨
            (env.geocode (b.address.getD "")).isSome)
    (hid : invalidId id = false)
    (hu1 : uid ≠ "") (hu2 : uid ≠ "placeholder-user-id")
    (hdb : db id = some r) (hown : r.createdBy = uid)
    (hpcat : truthyOptStr pb.category = false ∨
             validCategories.contains (pb.category.getD "") = true)
    (hploc : pb.location.isSome ∨ truthyOptStr pb.address = false ∨
             (env.geocode (pb.address.getD "")).isSome)
    (hpimgs : pb.newImages = some imgs) :
    ((POST env header b).status = 500 ∧
     (∀ j, j < k →
       Event.deleteCall (res j).publicId ∈ (POST env header b).events) ∧
     (POST env header b).created = none ∧
     (POST env header b).events.all (fun e => !e.isDbWrite) = true) ∧
    ((PATCH env db (some uid) id pb).status = 500 ∧
     (∀ j, j < k →
       Event.deleteCall (res j).publicId ∈ (PATCH env db (some uid) id pb).events) ∧
     (PATCH env db (some uid) id pb).stored = some r ∧
     (PATCH env db (some uid) id pb).events.all (fun e => !e.isDbWrite) = true) := by
  obtain ⟨floc, gevs, hres, hg, -, -⟩ :=
    resolveLocation_ok_of env b.location b.address hloc
  obtain ⟨floc2, gevs2, hres2, hg2, -, -⟩ :=
    resolveLocation_ok_of env pb.location pb.address hploc
  have hup := uploadLoop_fails_at env imgs [] k res hk hpre hfail
  have hmem : ∀ j, j < k → Event.deleteCall (res j).publicId ∈
      ([] ++ List.map res (List.range k)).map
        (fun i : Image => Event.deleteCall i.publicId) := by
    intro j hj
    exact List.mem_map.mpr ⟨res j,
      by simpa using List.mem_map.mpr ⟨j, List.mem_range.mpr hj, rfl⟩, rfl⟩
  have hgall : ∀ (g : List Event), (g = [] ∨
      ∃ a, g = [Event.geocodeCall a]) →
      g.all (fun e => !e.isDbWrite) = true := by
    rintro g (rfl | ⟨a, rfl⟩) <;> simp [Event.isDbWrite]
  constructor
  · rw [POST_stage_eq env header b imgs floc gevs hmiss hcat himgs hres, hup]
    refine ⟨rfl, fun j hj => ?_, rfl, ?_⟩
    · exact List.mem_append.mpr (Or.inr (List.mem_append.mpr
        (Or.inr (hmem j hj))))
    · refine all_not_dbWrite_append _ _
        (hgall gevs (hg.imp (fun h => h) (fun h => ⟨_, h⟩)))
        (all_not_dbWrite_append _ _ ?_ ?_)
      · exact all_not_dbWrite_map _ _ (fun a => rfl)
      · exact all_not_dbWrite_map _ _ (fun a => rfl)
  · rw [PATCH_owner_eq env db uid id pb r floc2 gevs2 hid hu1 hu2 hdb hown hpcat
      hres2]
    rw [hpimgs]
    simp only [Option.getD_some]
    rw [hup]
    refine ⟨rfl, fun j hj => ?_, rfl, ?_⟩
    · exact List.mem_cons_of_mem _ (List.mem_append.mpr (Or.inr
        (List.mem_append.mpr (Or.inr (hmem j hj)))))
    · refine all_not_dbWrite_cons _ _ rfl ?_
      refine all_not_dbWrite_append _ _
        (all_not_dbWrite_append _ _
          (hgall gevs2 (hg2.imp (fun h => h) (fun h => ⟨_, h⟩)))
          (all_not_dbWrite_map _ _ (fun a => rfl)))
        (all_not_dbWrite_append _ _ ?_ ?_)
      · exact all_not_dbWrite_map _ _ (fun a => rfl)
      · exact all_not_dbWrite_map _ _ (fun a => rfl)

/-- C2 (witness): the second of three uploads fails; the first image's
hosted copy is deleted, both handlers return 500, POST persists nothing and
PATCH leaves the record unchanged. -/
theorem claim2_witness :
    (POST envFailBad none badBatchBody).status = 500 ∧
    Event.deleteCall (badBatchRes 0).publicId ∈
      (POST envFailBad none badBatchBody).events ∧
    (POST envFailBad none badBatchBody).created = none ∧
    (PATCH envFailBad db1 (some "u1") "r1" badBatchPatch).status = 500 ∧
    Event.deleteCall (badBatchRes 0).publicId ∈
      (PATCH envFailBad db1 (some "u1") "r1" badBatchPatch).events ∧
    (PATCH envFailBad db1 (some "u1") "r1" badBatchPatch).stored = some report1 := by
  have h := claim2_rollback envFailBad none db1 "u1" "r1" badBatchBody
    badBatchPatch report1 ["a", "bad", "c"] 1 badBatchRes (by decide)
    (by intro j hj; interval_cases j; decide)
    (by decide) (by decide) (by decide) rfl (Or.inl (by decide)) (by decide)
    (by decide) (by decide) (by decide) (by decide) (Or.inl rfl)
    (Or.inr (Or.inl rfl)) rfl
  exact ⟨h.1.1, h.1.2.1 0 (by decide), h.1.2.2.1, h.2.1, h.2.2.1 0 (by decide),
    h.2.2.2.1⟩

/-- C6: a successful owner PATCH merges only the explicitly present fields
into the persisted record: absent fields keep their stored values; in
particular a supplied description replaces only the description, and with no
image additions or deletions requested the images stay untouched. -/
theorem claim6_frame (env : Env) (db : Store) (uid id : String) (pb : PatchBody)
    (r : StoredReport)
    (hid : invalidId id = false)
    (hu1 : uid ≠ "") (hu2 : uid ≠ "placeholder-user-id")
    (hdb : db id = some r) (hown : r.createdBy = uid)
    (hpcat : truthyOptStr pb.category = false ∨
             validCategories.contains (pb.category.getD "") = true)
    (hploc : pb.location.isSome ∨ truthyOptStr pb.address = false ∨
             (env.geocode (pb.address.getD "")).isSome)
    (hup : ∀ p ∈ pb.newImages.getD [], (env.upload p).isSome) :
    ∃ s, (PATCH env db (some uid) id pb).status = 200 ∧
      (PATCH env db (some uid) id pb).stored = some s ∧
      (pb.title = none → s.title = r.title) ∧
      (∀ t, pb.description = some t → s.description = t) ∧
      (pb.description = none → s.description = r.description) ∧
      (pb.category = none → s.category = r.category) ∧
      (pb.location = none → truthyOptStr pb.address = false →
        s.location = r.location) ∧
      (pb.imagesToDelete = none → pb.newImages = none → s.images = r.images) := by
  obtain ⟨floc, gevs, hres, -, -, hflocnone⟩ :=
    resolveLocation_ok_of env pb.location pb.address hploc
  obtain ⟨evs, l, hloop, hempty⟩ :=
    uploadLoop_ok_of_isSome env (pb.newImages.getD []) [] hup
  rw [PATCH_owner_eq env db uid id pb r floc gevs hid hu1 hu2 hdb hown hpcat hres,
    hloop]
  refine ⟨_, rfl, rfl, ?_, ?_, ?_, ?_, ?_, ?_⟩
  · intro h; simp [applyUpdate, h]
  · intro t h; simp [applyUpdate, h]
  · intro h; simp [applyUpdate, h]
  · intro h; simp [applyUpdate, h]
  · intro h1 h2
    have : floc = none := hflocnone h1 h2
    simp [applyUpdate, this]
  · intro h1 h2
    have hl : l = [] := by
      have := hempty (by simp [h2])
      simpa using this.2
    simp [applyUpdate, h1, hl, List.filter_eq_self]

/-- C6 (witness): a description-only PATCH on an owned report updates the
description and leaves title, category and images (and everything else)
unchanged. -/
theorem claim6_witness :
    (PATCH envNone db1 (some "u1") "r1" descPatch).status = 200 ∧
    (PATCH envNone db1 (some "u1") "r1" descPatch).stored =
      some { title := "t1", description := "new", category := "garbage"
             location := some { lat := 28, lng := 77 }, imageUrl := "u1"
             images := [{ url := "u1", publicId := "p1" }], resolved := false
             createdBy := "u1" } := by
  obtain ⟨s, h1, h2, -, -, -, -, -, -⟩ :=
    claim6_frame envNone db1 "u1" "r1" descPatch report1 (by decide) (by decide)
      (by decide) (by decide) (by decide) (Or.inl rfl) (Or.inr (Or.inl rfl))
      (by intro p hp; simp [descPatch] at hp)
  exact ⟨h1, by decide⟩

/-- C9: an owner PATCH whose body carries `category: ""` is not rejected by
the invalid-category check (which runs only for truthy category values), yet
the empty string is still merged, so the persisted category ends up outside
the garbage/waterlogging/other enum. -/
theorem claim9_empty_category (env : Env) (db : Store) (uid id : String)
    (pb : PatchBody) (r : StoredReport)
    (hid : invalidId id = false)
    (hu1 : uid ≠ "") (hu2 : uid ≠ "placeholder-user-id")
    (hdb : db id = some r) (hown : r.createdBy = uid)
    (hcat9 : pb.category = some "")
    (hploc : pb.location.isSome ∨ truthyOptStr pb.address = false ∨
             (env.geocode (pb.address.getD "")).isSome)
    (hup : ∀ p ∈ pb.newImages.getD [], (env.upload p).isSome) :
    (PATCH env db (some uid) id pb).status = 200 ∧
    ∃ s, (PATCH env db (some uid) id pb).stored = some s ∧ s.category = "" ∧
      validCategories.contains s.category = false := by
  have hpcat : truthyOptStr pb.category = false ∨
      validCategories.contains (pb.category.getD "") = true :=
    Or.inl (by simp [truthyOptStr, hcat9])
  obtain ⟨floc, gevs, hres, -, -, -⟩ :=
    resolveLocation_ok_of env pb.location pb.address hploc
  obtain ⟨evs, l, hloop, -⟩ :=
    uploadLoop_ok_of_isSome env (pb.newImages.getD []) [] hup
  rw [PATCH_owner_eq env db uid id pb r floc gevs hid hu1 hu2 hdb hown hpcat hres,
    hloop]
  refine ⟨rfl, _, rfl, ?_, ?_⟩
  · simp [applyUpdate, hcat9]
  · simp [applyUpdate, hcat9, validCategories]

/-- C9 (witness): a concrete empty-category owner PATCH is accepted and
stores category "". -/
theorem claim9_witness :
    (PATCH envNone db1 (some "u1") "r1" emptyCatPatch).status = 200 ∧
    (PATCH envNone db1 (some "u1") "r1" emptyCatPatch).stored =
      some { title := "t1", description := "d1", category := ""
             location := some { lat := 28, lng := 77 }, imageUrl := "u1"
             images := [{ url := "u1", publicId := "p1" }], resolved := false
             createdBy := "u1" } := by
  obtain ⟨h1, -⟩ :=
    claim9_empty_category envNone db1 "u1" "r1" emptyCatPatch report1 (by decide)
      (by decide) (by decide) (by decide) (by decide) rfl
      (Or.inr (Or.inl rfl)) (by intro p hp; simp [emptyCatPatch] at hp)
  exact ⟨h1, by decide⟩

/-- C10: whatever record a POST persists carries the request's title and
description with leading and trailing whitespace removed — so a
whitespace-only title (truthy, hence passing validation) is persisted as the
empty string. -/
theorem claim10_trimmed (env : Env) (header : Option String) (b : PostBody)
    (d : ReportData) (h : (POST env header b).created = some d) :
    d.title = jsTrim (b.title.getD "") ∧
    d.description = jsTrim (b.description.getD "") := by
  unfold POST at h
  repeat' split at h
  all_goals simp at h
  all_goals subst h
  all_goals exact ⟨rfl, rfl⟩

/-- C10 (witness): a whitespace-only title passes validation (201) and is
persisted as the empty string; the description is trimmed. -/
theorem claim10_witness :
    wsCreated.title = jsTrim " " ∧ wsCreated.description = jsTrim " d " ∧
    wsCreated.title = "" ∧ (POST envOk none wsBody).status = 201 :=
  ⟨(claim10_trimmed envOk none wsBody wsCreated (by decide)).1,
   (claim10_trimmed envOk none wsBody wsCreated (by decide)).2,
   by decide, by decide⟩

/-- C7 (counterexample): a list request whose page parameter parses to 0 —
outside the page ≥ 1 range — is not rejected with 400: `parseInt("0") || 1`
replaces it by the default and the request succeeds with 200. -/
theorem claim7_counterexample :
    ((0 : Int) < 1) ∧ (GETlist [] (some 0) (some 20) none none).status = 200 := by
  decide

/-- C7 (amended): when the effective page (parsed value, with 0/NaN replaced
by the default 1) or the effective limit (default 20) is out of range, the
list request fails with 400 and returns no summaries — in particular
limit=150 always gives 400; a literal page or limit parameter of 0 is
replaced by its default rather than rejected; and limit=100 on page 1
returns 200 with at most 100 summaries. -/
theorem claim7_amended_pagination (store : List StoredReport)
    (pP lP : Option Int) (cat rs : Option String)
    (h : parsedOr pP 1 < 1 ∨ parsedOr lP 20 < 1 ∨ 100 < parsedOr lP 20) :
    (GETlist store pP lP cat rs).status = 400 ∧
    (GETlist store pP lP cat rs).reports = [] ∧
    (GETlist store pP (some 150) cat rs).status = 400 ∧
    (GETlist store (some 1) (some 100) cat rs).status = 200 ∧
    (GETlist store (some 1) (some 100) cat rs).reports.length ≤ 100 ∧
    GETlist store (some 0) lP cat rs = GETlist store none lP cat rs ∧
    GETlist store pP (some 0) cat rs = GETlist store pP none cat rs := by
  refine ⟨?_, ?_, ?_, ?_, ?_, rfl, rfl⟩
  · rcases h with h | h | h <;> simp [GETlist, h]
  · rcases h with h | h | h <;> simp [GETlist, h]
  · simp [GETlist, parsedOr]
  · simp [GETlist, parsedOr]
  · simp only [GETlist, parsedOr]
    norm_num [getAllReports]

/-- C7 (witness): the amended behaviour at a negative page parameter. -/
theorem claim7_witness :
    (GETlist [] (some (-5)) (some 20) none none).status = 400 ∧
    (GETlist [] (some (-5)) (some 20) none none).reports = [] ∧
    (GETlist [] (some (-5)) (some 150) none none).status = 400 ∧
    (GETlist [] (some 1) (some 100) none none).status = 200 ∧
    (GETlist [] (some 1) (some 100) none none).reports.length ≤ 100 ∧
    GETlist [] (some 0) (some 20) none none = GETlist [] none (some 20) none none ∧
    GETlist [] (some (-5)) (some 0) none none =
      GETlist [] (some (-5)) none none none :=
  claim7_amended_pagination [] (some (-5)) (some 20) none none
    (Or.inl (by decide))

/-- C8 (counterexample): a PATCH without a user-id header whose id is the
empty string returns 400, not 401 — the id check precedes authentication —
refuting the claim as universally stated over all headerless requests. -/
theorem claim8_counterexample :
    (PATCH envNone dbEmpty none "" pbEmpty).status = 400 ∧
    (PATCH envNone dbEmpty none "" pbEmpty).status ≠ 401 := by
  decide

/-- C8 (amended): on a structurally valid id, PATCH and DELETE without a
user-id header return 401 with no outbound call and an unchanged store; the
POST handler never returns 401 for any input, and a headerless POST records
the fixed dummy owner id on whatever it persists. -/
theorem claim8_auth (env : Env) (db : Store) (b : PostBody) (pb : PatchBody)
    (id : String) (header : Option String)
    (hid : invalidId id = false) :
    (PATCH env db none id pb).status = 401 ∧
    (PATCH env db none id pb).events = [] ∧
    (PATCH env db none id pb).stored = db id ∧
    (DELETE env db none id).status = 401 ∧
    (DELETE env db none id).events = [] ∧
    (DELETE env db none id).stored = db id ∧
    (POST env header b).status ≠ 401 ∧
    (∀ d, (POST env none b).created = some d →
      d.createdBy = "000000000000000000000001") := by
  have hne : id ≠ "" := by
    intro he
    simp [invalidId, he] at hid
  have hpatch : (PATCH env db none id pb) =
      { status := 401, events := [], stored := db id } := by
    simp [PATCH, hid, jsOr]
  have hdel : (DELETE env db none id) =
      { status := 401, events := [], stored := db id } := by
    simp [DELETE, hne, jsOr]
  refine ⟨by rw [hpatch], by rw [hpatch], by rw [hpatch],
    by rw [hdel], by rw [hdel], by rw [hdel], ?_, ?_⟩
  · unfold POST
    repeat' split
    all_goals simp
  · intro d hd
    unfold POST at hd
    repeat' split at hd
    all_goals simp at hd
    all_goals subst hd
    all_goals simp [effectiveUserId, jsOr]

/-- C8 (witness): the amended behaviour at a concrete valid id and empty
store. -/
theorem claim8_witness :
    (PATCH envNone dbEmpty none "x" pbEmpty).status = 401 ∧
    (DELETE envNone dbEmpty none "x").status = 401 ∧
    (POST envNone none noTitleBody).status ≠ 401 := by
  have h := claim8_auth envNone dbEmpty noTitleBody pbEmpty "x" none (by decide)
  exact ⟨h.1, h.2.2.2.1, h.2.2.2.2.2.2.1⟩

end CleanIndia
